import Mathlib

/-
Verification of the shopping-cart sample: a session-scoped command
processor (cart actor per session, create-or-attach dispatch) fronted by
an HTTP UI (`shoppingcart/ui/main.go`).

The repository sources contain only the UI (`main.go`); the cart
workflow itself (the `shoppingcart` package: `CartWorkflow`, `CartState`,
the add/remove/list/checkout handler) and the hosting dispatch engine are
external to `src/`, so those parts are modelled from the specification,
as marked on each definition.  The UI handlers are embedded from
`main.go` directly.
-/

namespace ShoppingCart

/-- `CartState.Items` from the spec data model: an association list from
item identifier to quantity, standing for Go's `map[string]int`. -/
abbrev Items := List (String × Nat)

/-- Key lookup in an association list (first matching entry). -/
def lookupKey : List (String × α) → String → Option α
  | [], _ => none
  | (k, v) :: rest, key => if k = key then some v else lookupKey rest key

/-- Quantity of an item in a cart, zero when the key is absent. -/
def qty (xs : Items) (k : String) : Nat := (lookupKey xs k).getD 0

/-- Decidable form of the snapshot invariant: every stored quantity is
strictly positive. -/
def allPositive (xs : Items) : Bool := xs.all fun p => decide (0 < p.2)

/-- Modelled from the spec: `add(itemID)` of the Cart Actor (the
`shoppingcart` package's workflow body is not under `src/`).  Increments
`items[itemID]` by 1, inserting the key at quantity 1 if absent. -/
def addItem : Items → String → Items
  | [], k => [(k, 1)]
  | (k', q) :: rest, k =>
    if k' = k then (k', q + 1) :: rest else (k', q) :: addItem rest k

/-- Modelled from the spec: `remove(itemID)` of the Cart Actor (the
`shoppingcart` package's workflow body is not under `src/`).  Decrements
`items[itemID]` by 1 if present, deleting the key when the resulting
quantity is 0; a no-op when the key is absent. -/
def removeItem : Items → String → Items
  | [], _ => []
  | (k', q) :: rest, k =>
    if k' = k then (if q - 1 = 0 then rest else (k', q - 1) :: rest)
    else (k', q) :: removeItem rest k

/-- Actor lifecycle states from the spec: `Active` (initial) and
`CheckedOut` (terminal). -/
inductive Lifecycle
  | Active
  | CheckedOut
deriving DecidableEq

/-- Modelled from the spec: a Cart Actor instance (the workflow backing
it is not under `src/`): its lifecycle state and its Cart State. -/
structure Actor where
  lifecycle : Lifecycle
  items : Items
deriving DecidableEq

/-- The four commands of the Dispatcher surface. -/
inductive Command
  | add (itemID : String)
  | remove (itemID : String)
  | list
  | checkout
deriving DecidableEq

/-- The caller-visible error taxonomy of the spec (`CreationRaceLost` is
internal-only and never surfaced, so it has no constructor here). -/
inductive CartError
  | SessionClosed
  | DispatchFailure
deriving DecidableEq

/-- Modelled from the spec: one command-processing step of the Cart
Actor state machine (the `shoppingcart` workflow body is not under
`src/`).  In `CheckedOut` every command is rejected with `SessionClosed`;
in `Active`, mutating commands return the post-mutation snapshot, `list`
returns the current snapshot, and `checkout` transitions to `CheckedOut`
with no snapshot. -/
def applyCommand (a : Actor) (c : Command) : Except CartError (Actor × Option Items) :=
  match a.lifecycle with
  | Lifecycle.CheckedOut => Except.error CartError.SessionClosed
  | Lifecycle.Active =>
    match c with
    | Command.add k =>
      Except.ok ({ a with items := addItem a.items k }, some (addItem a.items k))
    | Command.remove k =>
      Except.ok ({ a with items := removeItem a.items k }, some (removeItem a.items k))
    | Command.list => Except.ok (a, some a.items)
    | Command.checkout =>
      Except.ok ({ a with lifecycle := Lifecycle.CheckedOut }, none)

/-- The Actor Directory: session identifier to actor instance. -/
abbrev Directory := List (String × Actor)

/-- Modelled from the spec: a freshly created actor is `Active` with
empty Cart State. -/
def emptyActor : Actor := { lifecycle := Lifecycle.Active, items := [] }

/-- Modelled from the spec: the Actor Directory's atomic create-or-attach
operation (realised in `main.go` only as the Temporal conflict policy
`USE_EXISTING`; the engine itself is not under `src/`).  Absent key:
register and return a new `Active` actor with empty state; present key:
return the existing instance regardless of lifecycle state. -/
def createOrAttach (d : Directory) (sid : String) : Directory × Actor :=
  match lookupKey d sid with
  | some a => (d, a)
  | none => ((sid, emptyActor) :: d, emptyActor)

/-- Write an updated actor back into the directory under its session
identifier (inserting it when the key is somehow absent). -/
def rewriteActor : Directory → String → Actor → Directory
  | [], sid, a => [(sid, a)]
  | (k, b) :: rest, sid, a =>
    if k = sid then (k, a) :: rest else (k, b) :: rewriteActor rest sid a

/-- Modelled from the spec: the Command Dispatcher algorithm of §4.3
(`main.go` only configures it; the dispatch engine is not under `src/`).
Obtains the actor by create-or-attach, applies the command serially, and
returns the updated directory together with either the snapshot option
(none exactly for `checkout`, which is fire-and-forget) or a
rejection. -/
def dispatch (d : Directory) (sid : String) (c : Command) :
    Directory × Except CartError (Option Items) :=
  match applyCommand (createOrAttach d sid).2 c with
  | Except.error e => ((createOrAttach d sid).1, Except.error e)
  | Except.ok (a', snap) => (rewriteActor (createOrAttach d sid).1 sid a', Except.ok snap)

/-- Run a sequence of dispatched commands against a directory. -/
def runDir (d : Directory) : List (String × Command) → Directory
  | [] => d
  | (sid, c) :: rest => runDir (dispatch d sid c).1 rest

/-! ### The front-end UI, embedded from `shoppingcart/ui/main.go` -/

/-- A Temporal client call issued by the UI: `SignalWorkflow` (used for
`checkout`, `main.go` line 88) or `UpdateWithStartWorkflow` (used inside
`updateWithStartCart`, line 132).  Both address a workflow by its
workflow identifier, which `main.go` always sets to `sessionId`. -/
inductive DispatchCall
  | signal (workflowID : String) (signalName : String)
  | updateWithStart (workflowID : String) (actionType : String) (itemID : String)
deriving DecidableEq

/-- Environment of the UI process: whether each Temporal client call
errors, and the cart snapshot a successful update-with-start yields.
This abstracts the server side, which is not under `src/`. -/
structure Env where
  signalErr : Bool
  updateErr : String → String → Bool
  updateItems : String → String → Items

/-- An inbound HTTP request to `/action`: its `type` and `itemID` query
parameters (`main.go` lines 85 and 93). -/
structure Request where
  actionType : String
  itemID : String
deriving DecidableEq

/-- `updateWithStartCart` of `main.go` (lines 106-151): issues one
update-with-start call addressed to the given session identifier and, on
success, returns the resulting cart snapshot.  A `none` result stands
for the `log.Fatalln` calls on lines 138 and 148: the process
terminates. -/
def updateWithStartCart (env : Env) (sid actionType itemID : String) :
    List DispatchCall × Option Items :=
  ([DispatchCall.updateWithStart sid actionType itemID],
    if env.updateErr actionType itemID then none
    else some (env.updateItems actionType itemID))

/-- `listHandler` of `main.go` (lines 48-82): renders the page after a
`list` dispatch for the session.  The Bool is true when the handler
returns normally and false when the process terminated via
`log.Fatalln`. -/
def listHandler (env : Env) (sid : String) : List DispatchCall × Bool :=
  ((updateWithStartCart env sid "list" "").1,
    ((updateWithStartCart env sid "list" "").2).isSome)

/-- `actionHandler` of `main.go` (lines 84-104): switches on the `type`
query parameter; `checkout` signals the workflow fire-and-forget, `add`,
`remove` and `list` go through `updateWithStartCart`, anything else hits
`log.Fatalln` (line 96).  Afterwards every non-`list` action re-renders
via `listHandler` (lines 101-103).  Result: the client calls issued in
order, and true if the handler returned (false when the process
terminated via `log.Fatalln`). -/
def actionHandler (env : Env) (sid : String) (req : Request) :
    List DispatchCall × Bool :=
  if req.actionType = "checkout" then
    if env.signalErr then ([DispatchCall.signal sid "checkout"], false)
    else (DispatchCall.signal sid "checkout" :: (listHandler env sid).1,
      (listHandler env sid).2)
  else if req.actionType = "add" ∨ req.actionType = "remove" then
    match (updateWithStartCart env sid req.actionType req.itemID).2 with
    | none => ((updateWithStartCart env sid req.actionType req.itemID).1, false)
    | some _ =>
      ((updateWithStartCart env sid req.actionType req.itemID).1 ++ (listHandler env sid).1,
        (listHandler env sid).2)
  else if req.actionType = "list" then
    ((updateWithStartCart env sid "list" req.itemID).1,
      ((updateWithStartCart env sid "list" req.itemID).2).isSome)
  else ([], false)

/-- `newSession` of `main.go` (lines 153-155), with the UUID generator
abstracted as an argument. -/
def newSession (u : String) : String := "session-" ++ u

/-- The workflow identifier a UI client call addresses. -/
def callSession : DispatchCall → String
  | DispatchCall.signal wid _ => wid
  | DispatchCall.updateWithStart wid _ _ => wid

/-- All client calls one UI process issues over its lifetime: the
process mints `sessionId = newSession u` once at start (`main.go` line
27) and handles every request with it. -/
def processCalls (env : Env) (u : String) (reqs : List Request) : List DispatchCall :=
  (reqs.map fun req => (actionHandler env (newSession u) req).1).flatten

/-! ### Basic lemmas about the cart-state operations -/

theorem lookupKey_eq_none_of_not_mem {α : Type} (xs : List (String × α)) (k : String)
    (h : k ∉ xs.map Prod.fst) : lookupKey xs k = none := by
  induction xs with
  | nil => rfl
  | cons p rest ih =>
    obtain ⟨k', v⟩ := p
    simp only [List.map_cons, List.mem_cons] at h
    push_neg at h
    have hk : ¬ k' = k := fun hk => h.1 hk.symm
    show (if k' = k then some v else lookupKey rest k) = none
    rw [if_neg hk]
    exact ih h.2

theorem removeItem_absent (xs : Items) (k : String) (h : lookupKey xs k = none) :
    removeItem xs k = xs := by
  induction xs with
  | nil => rfl
  | cons p rest ih =>
    obtain ⟨k', q⟩ := p
    by_cases hk : k' = k
    · simp [lookupKey, hk] at h
    · simp only [removeItem, if_neg hk]
      simp only [lookupKey, if_neg hk] at h
      rw [ih h]

theorem rewriteActor_lookup (d : Directory) (sid : String) (a : Actor) :
    lookupKey (rewriteActor d sid a) sid = some a := by
  induction d with
  | nil => simp [rewriteActor, lookupKey]
  | cons p rest ih =>
    obtain ⟨k, b⟩ := p
    by_cases hk : k = sid
    · simp [rewriteActor, lookupKey, hk]
    · show lookupKey (if k = sid then (k, a) :: rest else (k, b) :: rewriteActor rest sid a) sid
        = some a
      rw [if_neg hk]
      show (if k = sid then some b else lookupKey (rewriteActor rest sid a) sid) = some a
      rw [if_neg hk]
      exact ih

/-- Well-formed cart state: positive quantities and unrepeated keys. -/
def ItemsWF (xs : Items) : Prop := (∀ p ∈ xs, 0 < p.2) ∧ (xs.map Prod.fst).Nodup

/-- Well-formed directory: every registered actor has well-formed
state. -/
def DirWF (d : Directory) : Prop := ∀ p ∈ d, ItemsWF p.2.items

theorem lookupKey_mem {α : Type} (xs : List (String × α)) (k : String) (v : α)
    (h : lookupKey xs k = some v) : (k, v) ∈ xs := by
  induction xs with
  | nil => simp [lookupKey] at h
  | cons hd rest ih =>
    obtain ⟨k', v'⟩ := hd
    by_cases hk : k' = k
    · subst hk
      simp only [lookupKey, eq_self_iff_true, if_true, Option.some.injEq] at h
      subst h
      exact List.mem_cons_self _ _
    · simp only [lookupKey, if_neg hk] at h
      exact List.mem_cons_of_mem _ (ih h)

theorem addItem_pos (xs : Items) (k : String) (h : ∀ p ∈ xs, 0 < p.2) :
    ∀ p ∈ addItem xs k, 0 < p.2 := by
  induction xs with
  | nil =>
    intro p hp
    simp only [addItem, List.mem_singleton] at hp
    rw [hp]
    exact Nat.one_pos
  | cons hd rest ih =>
    obtain ⟨k', q⟩ := hd
    intro p hp
    by_cases hk : k' = k
    · simp only [addItem, if_pos hk, List.mem_cons] at hp
      rcases hp with h1 | h2
      · rw [h1]
        exact Nat.succ_pos q
      · exact h p (List.mem_cons_of_mem _ h2)
    · simp only [addItem, if_neg hk, List.mem_cons] at hp
      rcases hp with h1 | h2
      · exact h1 ▸ h (k', q) (List.mem_cons_self _ _)
      · exact ih (fun p hp => h p (List.mem_cons_of_mem _ hp)) p h2

theorem addItem_keys_subset (xs : Items) (k k'' : String)
    (h : k'' ∈ (addItem xs k).map Prod.fst) :
    k'' ∈ xs.map Prod.fst ∨ k'' = k := by
  induction xs with
  | nil =>
    simp only [addItem, List.map_cons, List.map_nil, List.mem_singleton] at h
    exact Or.inr h
  | cons hd rest ih =>
    obtain ⟨k', q⟩ := hd
    by_cases hk : k' = k
    · simp only [addItem, if_pos hk, List.map_cons, List.mem_cons] at h
      rcases h with h1 | h2
      · exact Or.inl (by simp [h1])
      · exact Or.inl (by simp [h2])
    · simp only [addItem, if_neg hk, List.map_cons, List.mem_cons] at h
      rcases h with h1 | h2
      · exact Or.inl (by simp [h1])
      · rcases ih h2 with h3 | h3
        · exact Or.inl (by simp [h3])
        · exact Or.inr h3

theorem addItem_nodup (xs : Items) (k : String) (h : (xs.map Prod.fst).Nodup) :
    ((addItem xs k).map Prod.fst).Nodup := by
  induction xs with
  | nil => simp [addItem]
  | cons hd rest ih =>
    obtain ⟨k', q⟩ := hd
    simp only [List.map_cons, List.nodup_cons] at h
    by_cases hk : k' = k
    · simp only [addItem, if_pos hk, List.map_cons, List.nodup_cons]
      exact ⟨h.1, h.2⟩
    · simp only [addItem, if_neg hk, List.map_cons, List.nodup_cons]
      refine ⟨?_, ih h.2⟩
      intro hmem
      rcases addItem_keys_subset rest k k' hmem with h3 | h3
      · exact h.1 h3
      · exact hk h3

theorem removeItem_keys_sublist (xs : Items) (k : String) :
    ((removeItem xs k).map Prod.fst).Sublist (xs.map Prod.fst) := by
  induction xs with
  | nil => simp [removeItem]
  | cons hd rest ih =>
    obtain ⟨k', q⟩ := hd
    by_cases hk : k' = k
    · simp only [removeItem, if_pos hk]
      by_cases hq : q - 1 = 0
      · rw [if_pos hq]
        simp only [List.map_cons]
        exact List.sublist_cons_self _ _
      · rw [if_neg hq]
        simp only [List.map_cons]
        exact List.Sublist.refl _
    · simp only [removeItem, if_neg hk, List.map_cons]
      exact List.Sublist.cons₂ k' ih

theorem removeItem_pos (xs : Items) (k : String) (h : ∀ p ∈ xs, 0 < p.2) :
    ∀ p ∈ removeItem xs k, 0 < p.2 := by
  induction xs with
  | nil =>
    intro p hp
    simp [removeItem] at hp
  | cons hd rest ih =>
    obtain ⟨k', q⟩ := hd
    intro p hp
    by_cases hk : k' = k
    · simp only [removeItem, if_pos hk] at hp
      by_cases hq : q - 1 = 0
      · rw [if_pos hq] at hp
        exact h p (List.mem_cons_of_mem _ hp)
      · rw [if_neg hq] at hp
        rcases List.mem_cons.mp hp with h1 | h2
        · rw [h1]
          exact Nat.pos_of_ne_zero hq
        · exact h p (List.mem_cons_of_mem _ h2)
    · simp only [removeItem, if_neg hk] at hp
      rcases List.mem_cons.mp hp with h1 | h2
      · exact h1 ▸ h (k', q) (List.mem_cons_self _ _)
      · exact ih (fun p hp => h p (List.mem_cons_of_mem _ hp)) p h2

theorem applyCommand_snapshot (a : Actor) (c : Command) (a' : Actor) (snap : Option Items)
    (hc : c ≠ Command.checkout)
    (h : applyCommand a c = Except.ok (a', snap)) : snap = some a'.items := by
  cases hlc : a.lifecycle with
  | CheckedOut => simp [applyCommand, hlc] at h
  | Active =>
    cases c with
    | add k =>
      simp only [applyCommand, hlc, Except.ok.injEq, Prod.mk.injEq] at h
      rw [← h.1, ← h.2]
    | remove k =>
      simp only [applyCommand, hlc, Except.ok.injEq, Prod.mk.injEq] at h
      rw [← h.1, ← h.2]
    | list =>
      simp only [applyCommand, hlc, Except.ok.injEq, Prod.mk.injEq] at h
      rw [← h.1, ← h.2]
    | checkout => exact absurd rfl hc

theorem applyCommand_checkout (a a' : Actor) (snap : Option Items)
    (h : applyCommand a Command.checkout = Except.ok (a', snap)) :
    snap = none ∧ a'.lifecycle = Lifecycle.CheckedOut := by
  cases hlc : a.lifecycle with
  | CheckedOut => simp [applyCommand, hlc] at h
  | Active =>
    simp only [applyCommand, hlc, Except.ok.injEq, Prod.mk.injEq] at h
    exact ⟨h.2.symm, by rw [← h.1]⟩

theorem applyCommand_closed (a : Actor) (c : Command)
    (h : a.lifecycle = Lifecycle.CheckedOut) :
    applyCommand a c = Except.error CartError.SessionClosed := by
  simp [applyCommand, h]

theorem applyCommand_snap_cases (a : Actor) (c : Command) (a' : Actor) (snap : Option Items)
    (h : applyCommand a c = Except.ok (a', snap)) :
    snap = none ∨ snap = some a'.items := by
  cases c with
  | checkout => exact Or.inl (applyCommand_checkout a a' snap h).1
  | add k => exact Or.inr (applyCommand_snapshot a _ a' snap (by simp) h)
  | remove k => exact Or.inr (applyCommand_snapshot a _ a' snap (by simp) h)
  | list => exact Or.inr (applyCommand_snapshot a _ a' snap (by simp) h)

theorem applyCommand_wf (a : Actor) (c : Command) (a' : Actor) (snap : Option Items)
    (hwf : ItemsWF a.items) (h : applyCommand a c = Except.ok (a', snap)) :
    ItemsWF a'.items := by
  cases hlc : a.lifecycle with
  | CheckedOut => simp [applyCommand, hlc] at h
  | Active =>
    cases c with
    | add k =>
      simp only [applyCommand, hlc, Except.ok.injEq, Prod.mk.injEq] at h
      rw [← h.1]
      exact ⟨addItem_pos a.items k hwf.1, addItem_nodup a.items k hwf.2⟩
    | remove k =>
      simp only [applyCommand, hlc, Except.ok.injEq, Prod.mk.injEq] at h
      rw [← h.1]
      exact ⟨removeItem_pos a.items k hwf.1,
        List.Nodup.sublist (removeItem_keys_sublist a.items k) hwf.2⟩
    | list =>
      simp only [applyCommand, hlc, Except.ok.injEq, Prod.mk.injEq] at h
      rw [← h.1]
      exact hwf
    | checkout =>
      simp only [applyCommand, hlc, Except.ok.injEq, Prod.mk.injEq] at h
      rw [← h.1]
      exact hwf

theorem dirWF_createOrAttach (d : Directory) (sid : String) (h : DirWF d) :
    DirWF (createOrAttach d sid).1 ∧ ItemsWF (createOrAttach d sid).2.items := by
  cases hlk : lookupKey d sid with
  | none =>
    simp only [createOrAttach, hlk]
    constructor
    · intro p hp
      rcases List.mem_cons.mp hp with h1 | h2
      · rw [h1]
        exact ⟨by simp [emptyActor], by simp [emptyActor]⟩
      · exact h p h2
    · exact ⟨by simp [emptyActor], by simp [emptyActor]⟩
  | some a =>
    simp only [createOrAttach, hlk]
    exact ⟨h, h (sid, a) (lookupKey_mem d sid a hlk)⟩

theorem dirWF_rewriteActor (d : Directory) (sid : String) (a : Actor)
    (hwf : DirWF d) (ha : ItemsWF a.items) : DirWF (rewriteActor d sid a) := by
  induction d with
  | nil =>
    intro p hp
    simp only [rewriteActor, List.mem_singleton] at hp
    rw [hp]
    exact ha
  | cons hd rest ih =>
    obtain ⟨k, b⟩ := hd
    intro p hp
    by_cases hk : k = sid
    · simp only [rewriteActor, if_pos hk] at hp
      rcases List.mem_cons.mp hp with h1 | h2
      · rw [h1]
        exact ha
      · exact hwf p (List.mem_cons_of_mem _ h2)
    · simp only [rewriteActor, if_neg hk] at hp
      rcases List.mem_cons.mp hp with h1 | h2
      · exact h1 ▸ hwf (k, b) (List.mem_cons_self _ _)
      · exact ih (fun p hp => hwf p (List.mem_cons_of_mem _ hp)) p h2

theorem dispatch_wf (d : Directory) (sid : String) (c : Command) (hwf : DirWF d) :
    DirWF (dispatch d sid c).1 ∧
      ∀ xs, (dispatch d sid c).2 = Except.ok (some xs) → ItemsWF xs := by
  obtain ⟨hd1, ha⟩ := dirWF_createOrAttach d sid hwf
  cases happ : applyCommand (createOrAttach d sid).2 c with
  | error e =>
    simp only [dispatch, happ]
    exact ⟨hd1, by intro xs hx; simp at hx⟩
  | ok pr =>
    obtain ⟨a', snap⟩ := pr
    have ha' : ItemsWF a'.items := applyCommand_wf _ c a' snap ha happ
    simp only [dispatch, happ]
    constructor
    · exact dirWF_rewriteActor _ sid a' hd1 ha'
    · intro xs hx
      simp only [Except.ok.injEq] at hx
      rcases applyCommand_snap_cases _ c a' snap happ with h1 | h1
      · rw [h1] at hx
        exact Option.noConfusion hx
      · rw [h1] at hx
        injection hx with hx
        rw [← hx]
        exact ha'

theorem runDir_wf (cs : List (String × Command)) (d : Directory) (hwf : DirWF d) :
    DirWF (runDir d cs) := by
  induction cs generalizing d with
  | nil => exact hwf
  | cons p rest ih =>
    obtain ⟨sid, c⟩ := p
    exact ih _ (dispatch_wf d sid c hwf).1

/-! ### Claim theorems -/

/-- C6: for every cart state and every itemID absent from the cart's
items mapping, `remove(itemID)` is a no-op: it succeeds (no error),
creates no entry, and the snapshot after equals the snapshot before. -/
theorem remove_absent_noop (a : Actor) (k : String)
    (hact : a.lifecycle = Lifecycle.Active)
    (habs : lookupKey a.items k = none) :
    applyCommand a (Command.remove k) = Except.ok (a, some a.items) := by
  obtain ⟨lc, items⟩ := a
  cases lc with
  | Active =>
    show Except.ok (({ lifecycle := Lifecycle.Active, items := removeItem items k } : Actor),
        some (removeItem items k)) =
      Except.ok (({ lifecycle := Lifecycle.Active, items := items } : Actor), some items)
    rw [removeItem_absent items k habs]
  | CheckedOut => simp at hact

/-- Witness for C6, the spec's own scenario: `remove("car")` on the
empty cart succeeds and leaves the state unchanged. -/
theorem remove_absent_noop_witness :
    emptyActor.lifecycle = Lifecycle.Active ∧
      lookupKey emptyActor.items "car" = none ∧
      applyCommand emptyActor (Command.remove "car") =
        Except.ok (emptyActor, some emptyActor.items) :=
  ⟨rfl, rfl, remove_absent_noop emptyActor "car" rfl rfl⟩

/-- C7: `add(x)` immediately followed by `remove(x)` yields a quantity
for `x` equal to the quantity before the pair, for every cart state
whose keys are unrepeated (as association lists built by the operations
always are). -/
theorem add_remove_round_trip (xs : Items) (k : String)
    (h : (xs.map Prod.fst).Nodup) :
    qty (removeItem (addItem xs k) k) k = qty xs k := by
  induction xs with
  | nil => simp [addItem, removeItem, qty, lookupKey]
  | cons p rest ih =>
    obtain ⟨k', q⟩ := p
    simp only [List.map_cons, List.nodup_cons] at h
    by_cases hk : k' = k
    · subst hk
      have habs : lookupKey rest k' = none := lookupKey_eq_none_of_not_mem rest k' h.1
      by_cases hq : q = 0
      · subst hq
        simp [addItem, removeItem, qty, lookupKey, habs]
      · simp [addItem, removeItem, qty, lookupKey, hq]
    · have hrec := ih h.2
      simp only [qty] at hrec
      simp only [addItem, if_neg hk, removeItem, qty, lookupKey]
      exact hrec

/-- Witness for C7 at a concrete cart: two apples, add then remove one,
quantity is two again. -/
theorem add_remove_round_trip_witness :
    (([("apple", 2)] : Items).map Prod.fst).Nodup ∧
      qty (removeItem (addItem [("apple", 2)] "apple") "apple") "apple" =
        qty [("apple", 2)] "apple" :=
  ⟨by decide, add_remove_round_trip [("apple", 2)] "apple" (by decide)⟩

/-- C2: for every dispatched `add`, `remove` or `list` command, the
Dispatcher blocks until the actor has applied (or rejected) the command
and then returns the resulting Cart State snapshot: a successful result
always carries a snapshot, and that snapshot is exactly the cart state
of the actor registered for the session after the command was applied. -/
theorem dispatch_returns_completed_snapshot (d : Directory) (sid : String) (c : Command)
    (hc : c ≠ Command.checkout) (r : Option Items)
    (h : (dispatch d sid c).2 = Except.ok r) :
    r.isSome = true ∧
      r = Option.map Actor.items (lookupKey (dispatch d sid c).1 sid) := by
  cases happ : applyCommand (createOrAttach d sid).2 c with
  | error e => simp [dispatch, happ] at h
  | ok pr =>
    obtain ⟨a', snap⟩ := pr
    have hs : snap = some a'.items := applyCommand_snapshot _ c a' snap hc happ
    simp only [dispatch, happ, Except.ok.injEq] at h
    rw [← h, hs]
    simp only [dispatch, happ]
    rw [rewriteActor_lookup]
    simp

/-- Witness for C2: `add("apple")` on a fresh session returns the
snapshot of the freshly registered actor. -/
theorem dispatch_returns_completed_snapshot_witness :
    (dispatch [] "s" (Command.add "apple")).2 = Except.ok (some [("apple", 1)]) ∧
      ((some [("apple", 1)] : Option Items).isSome = true ∧
        (some [("apple", 1)] : Option Items) =
          Option.map Actor.items (lookupKey (dispatch [] "s" (Command.add "apple")).1 "s")) :=
  ⟨rfl,
    dispatch_returns_completed_snapshot [] "s" (Command.add "apple") (by decide)
      (some [("apple", 1)]) rfl⟩

/-- C3: for every `checkout` command, the Dispatcher returns without
giving the caller any state snapshot (fire-and-forget): a successful
checkout dispatch always carries `none`. -/
theorem checkout_gives_no_snapshot (d : Directory) (sid : String) (r : Option Items)
    (h : (dispatch d sid Command.checkout).2 = Except.ok r) : r = none := by
  cases happ : applyCommand (createOrAttach d sid).2 Command.checkout with
  | error e => simp [dispatch, happ] at h
  | ok pr =>
    obtain ⟨a', snap⟩ := pr
    have hs : snap = none := (applyCommand_checkout _ a' snap happ).1
    simp only [dispatch, happ, Except.ok.injEq] at h
    rw [← h, hs]

/-- Witness for C3: checkout of a fresh session succeeds with no
snapshot. -/
theorem checkout_gives_no_snapshot_witness :
    (dispatch [] "s" Command.checkout).2 = Except.ok none ∧ (none : Option Items) = none :=
  ⟨rfl, checkout_gives_no_snapshot [] "s" none rfl⟩

/-- C4: the first dispatch for a session identifier creates a new
`Active` actor with empty Cart State and registers it; every later
dispatch for the same identifier attaches to the same existing actor
instance regardless of its lifecycle state; and after any dispatch the
actor remains registered. -/
theorem createOrAttach_first_creates_then_attaches (d : Directory) (sid : String) :
    (lookupKey d sid = none →
        createOrAttach d sid = ((sid, emptyActor) :: d, emptyActor) ∧
          emptyActor.lifecycle = Lifecycle.Active ∧ emptyActor.items = [] ∧
          lookupKey ((sid, emptyActor) :: d) sid = some emptyActor) ∧
      (∀ a, lookupKey d sid = some a → createOrAttach d sid = (d, a)) ∧
      ∀ c, (lookupKey (dispatch d sid c).1 sid).isSome = true := by
  refine ⟨?_, ?_, ?_⟩
  · intro h
    refine ⟨by simp [createOrAttach, h], rfl, rfl, by simp [lookupKey]⟩
  · intro a h
    simp [createOrAttach, h]
  · intro c
    cases happ : applyCommand (createOrAttach d sid).2 c with
    | error e =>
      simp only [dispatch, happ]
      cases hlk : lookupKey d sid with
      | none => simp [createOrAttach, hlk, lookupKey]
      | some a => simp [createOrAttach, hlk]
    | ok pr =>
      obtain ⟨a', snap⟩ := pr
      simp only [dispatch, happ]
      rw [rewriteActor_lookup]
      rfl

/-- Witness for C4: a previously-unseen session identifier gets a fresh
empty `Active` actor, registered under that identifier. -/
theorem createOrAttach_first_creates_then_attaches_witness :
    lookupKey ([] : Directory) "s" = none ∧
      (createOrAttach [] "s" = (("s", emptyActor) :: [], emptyActor) ∧
        emptyActor.lifecycle = Lifecycle.Active ∧ emptyActor.items = [] ∧
        lookupKey (("s", emptyActor) :: []) "s" = some emptyActor) :=
  ⟨rfl, (createOrAttach_first_creates_then_attaches [] "s").1 rfl⟩

/-- C5: once checkout has been applied for a session identifier the
actor is `CheckedOut`, and every subsequent command dispatched for that
identifier is rejected with `SessionClosed`, mutating nothing — the
directory is returned unchanged, so the identifier is never silently
reused for a fresh `Active` actor. -/
theorem session_closed_after_checkout (d : Directory) (sid : String) :
    (∀ d' r, dispatch d sid Command.checkout = (d', Except.ok r) →
        Option.map Actor.lifecycle (lookupKey d' sid) = some Lifecycle.CheckedOut) ∧
      ∀ a c, lookupKey d sid = some a → a.lifecycle = Lifecycle.CheckedOut →
        dispatch d sid c = (d, Except.error CartError.SessionClosed) := by
  constructor
  · intro d' r h
    cases happ : applyCommand (createOrAttach d sid).2 Command.checkout with
    | error e => simp [dispatch, happ] at h
    | ok pr =>
      obtain ⟨a', snap⟩ := pr
      have hlc := (applyCommand_checkout _ a' snap happ).2
      simp only [dispatch, happ, Prod.mk.injEq] at h
      rw [← h.1, rewriteActor_lookup]
      simp [hlc]
  · intro a c hlk hlc
    have hca : createOrAttach d sid = (d, a) := by simp [createOrAttach, hlk]
    have happ : applyCommand a c = Except.error CartError.SessionClosed :=
      applyCommand_closed a c hlc
    simp [dispatch, hca, happ]

/-- A checked-out actor with empty cart, for concrete instances. -/
def closedActor : Actor := { lifecycle := Lifecycle.CheckedOut, items := [] }

/-- Witness for C5: an `add` for a checked-out session is rejected with
`SessionClosed` and the directory is unchanged. -/
theorem session_closed_after_checkout_witness :
    lookupKey [("s", closedActor)] "s" = some closedActor ∧
      closedActor.lifecycle = Lifecycle.CheckedOut ∧
      dispatch [("s", closedActor)] "s" (Command.add "apple") =
        ([("s", closedActor)], Except.error CartError.SessionClosed) :=
  ⟨by decide, rfl,
    (session_closed_after_checkout [("s", closedActor)] "s").2 closedActor
      (Command.add "apple") (by decide) rfl⟩

/-- C8: in every snapshot observable by a caller — a snapshot returned
by any dispatch after any sequence of dispatched commands starting from
the empty directory — every stored quantity is strictly positive; a
quantity reaching 0 removes the key, so no zero or negative entry ever
appears. -/
theorem observable_snapshots_positive (cs : List (String × Command)) (sid : String)
    (c : Command) (xs : Items)
    (h : (dispatch (runDir [] cs) sid c).2 = Except.ok (some xs)) :
    allPositive xs = true := by
  have hwf : DirWF (runDir [] cs) :=
    runDir_wf cs [] (fun p hp => absurd hp (List.not_mem_nil p))
  have hpos := ((dispatch_wf (runDir [] cs) sid c hwf).2 xs h).1
  simp only [allPositive, List.all_eq_true, decide_eq_true_eq]
  exact hpos

/-- Witness for C8: after `add("apple")` twice the observed snapshot is
`apple ↦ 2`, all entries positive. -/
theorem observable_snapshots_positive_witness :
    (dispatch (runDir [] [("s", Command.add "apple")]) "s" (Command.add "apple")).2 =
        Except.ok (some [("apple", 2)]) ∧
      allPositive [("apple", 2)] = true :=
  ⟨rfl,
    observable_snapshots_positive [("s", Command.add "apple")] "s" (Command.add "apple")
      [("apple", 2)] rfl⟩

theorem callSession_of_mem_actionHandler (env : Env) (sid : String) (req : Request) :
    ∀ call ∈ (actionHandler env sid req).1, callSession call = sid := by
  intro call hcall
  unfold actionHandler at hcall
  repeat' split at hcall
  all_goals
    simp only [listHandler, updateWithStartCart, List.mem_cons, List.mem_singleton,
      List.mem_append, List.not_mem_nil, or_false] at hcall
  · rw [hcall]; rfl
  · rcases hcall with h | h <;> (rw [h]; rfl)
  · rw [hcall]; rfl
  · rcases hcall with h | h <;> (rw [h]; rfl)
  · rw [hcall]; rfl

/-- An environment in which every Temporal client call succeeds and
returns the empty cart. -/
def envOK : Env :=
  { signalErr := false, updateErr := fun _ _ => false, updateItems := fun _ _ => [] }

/-- C9: every client call the UI process issues over its whole lifetime
— for every environment, every request list, every action — addresses
the single session identifier minted once at program start by
`newSession`; no request ever obtains a distinct session, so all
visitors of one process share one cart. -/
theorem all_calls_share_one_session (env : Env) (u : String) (reqs : List Request) :
    ∀ call ∈ processCalls env u reqs, callSession call = newSession u := by
  intro call hcall
  simp only [processCalls, List.mem_flatten, List.mem_map] at hcall
  obtain ⟨l, ⟨req, hreq, hl⟩, hcl⟩ := hcall
  rw [← hl] at hcl
  exact callSession_of_mem_actionHandler env (newSession u) req call hcl

/-- Witness for C9: the update-with-start call of an `add` request
addresses the process-wide session identifier. -/
theorem all_calls_share_one_session_witness :
    DispatchCall.updateWithStart (newSession "u") "add" "apple" ∈
        processCalls envOK "u" [{ actionType := "add", itemID := "apple" }] ∧
      callSession (DispatchCall.updateWithStart (newSession "u") "add" "apple") =
        newSession "u" :=
  ⟨by decide,
    all_calls_share_one_session envOK "u" [{ actionType := "add", itemID := "apple" }]
      (DispatchCall.updateWithStart (newSession "u") "add" "apple") (by decide)⟩

/-- C10: a request to `/action` whose type parameter is none of
`checkout`, `add`, `remove`, `list` makes the handler terminate the
entire process (`log.Fatalln`, the `false` flag) without issuing any
dispatch and without returning a response to the caller. -/
theorem invalid_action_terminates_process (env : Env) (sid : String) (req : Request)
    (h1 : req.actionType ≠ "checkout") (h2 : req.actionType ≠ "add")
    (h3 : req.actionType ≠ "remove") (h4 : req.actionType ≠ "list") :
    actionHandler env sid req = ([], false) := by
  have hor : ¬ (req.actionType = "add" ∨ req.actionType = "remove") := by
    rintro (h | h)
    · exact h2 h
    · exact h3 h
  simp only [actionHandler, if_neg h1, if_neg hor, if_neg h4]

/-- Witness for C10: action type `frobnicate` terminates the process
with no dispatch issued. -/
theorem invalid_action_terminates_process_witness :
    (("frobnicate" : String) ≠ "checkout" ∧ ("frobnicate" : String) ≠ "add" ∧
        ("frobnicate" : String) ≠ "remove" ∧ ("frobnicate" : String) ≠ "list") ∧
      actionHandler envOK "s" { actionType := "frobnicate", itemID := "" } = ([], false) :=
  ⟨⟨by decide, by decide, by decide, by decide⟩,
    invalid_action_terminates_process envOK "s"
      { actionType := "frobnicate", itemID := "" }
      (by decide) (by decide) (by decide) (by decide)⟩

/-- An environment in which every `add` update-with-start dispatch
fails (for example with `DispatchFailure` from the hosting engine). -/
def envAddFails : Env :=
  { signalErr := false, updateErr := fun a _ => a == "add", updateItems := fun _ _ => [] }

/-- C1 counterexample: in an environment where the `add` dispatch cannot
be completed, the handler for `add("apple")` does not continue — the
process terminates (`log.Fatalln` in `updateWithStartCart`, `main.go`
line 138/148), refuting that the caller's process continues so the
front end can show a failure state. -/
theorem dispatch_error_kills_process_cex :
    envAddFails.updateErr "add" "apple" = true ∧
      actionHandler envAddFails "s" { actionType := "add", itemID := "apple" } =
        ([DispatchCall.updateWithStart "s" "add" "apple"], false) :=
  ⟨rfl, by decide⟩

/-- C1 amended: whenever a mutating or read command (`add`, `remove` or
`list`) cannot be completed, the caller receives no snapshot and issues
no further dispatch, but instead of continuing, the front-end caller
terminates the whole process via `log.Fatalln`: the error is escalated
to the entire process rather than surfaced as a failure state. -/
theorem dispatch_error_terminates_process (env : Env) (sid : String) (req : Request)
    (h : req.actionType = "add" ∨ req.actionType = "remove" ∨ req.actionType = "list")
    (he : env.updateErr req.actionType req.itemID = true) :
    actionHandler env sid req =
      ([DispatchCall.updateWithStart sid req.actionType req.itemID], false) := by
  have h1 : req.actionType ≠ "checkout" := by
    rcases h with h | h | h <;> rw [h] <;> decide
  rcases h with h | h | h
  · have hor : req.actionType = "add" ∨ req.actionType = "remove" := Or.inl h
    simp [actionHandler, if_neg h1, if_pos hor, updateWithStartCart, he]
  · have hor : req.actionType = "add" ∨ req.actionType = "remove" := Or.inr h
    simp [actionHandler, if_neg h1, if_pos hor, updateWithStartCart, he]
  · have hor : ¬ (req.actionType = "add" ∨ req.actionType = "remove") := by
      rw [h]; decide
    rw [h] at he ⊢
    simp [actionHandler, if_neg h1, if_neg hor, if_pos h, updateWithStartCart, he]

/-- Witness for C1 (amended): the failing `add("apple")` dispatch ends
the process after its single client call. -/
theorem dispatch_error_terminates_process_witness :
    (("add" : String) = "add" ∨ ("add" : String) = "remove" ∨ ("add" : String) = "list") ∧
      envAddFails.updateErr "add" "apple" = true ∧
      actionHandler envAddFails "s" { actionType := "add", itemID := "apple" } =
        ([DispatchCall.updateWithStart "s" "add" "apple"], false) :=
  ⟨Or.inl rfl, rfl,
    dispatch_error_terminates_process envAddFails "s"
      { actionType := "add", itemID := "apple" } (Or.inl rfl) rfl⟩

end ShoppingCart
